import Mathlib

/-!
# Verification of the real-time core of a team-chat application

Shallow embedding of the backend's real-time communication core:
`MessageService` and `HuddleService` (Prisma-backed persistence modelled as
lists of records in an explicit `DB` state), and the socket event handlers
(`messageHandlers`, `presenceHandlers`, `huddleHandlers`, `initializeSocket`)
with socket.io rooms modelled as a `ServerState` and broadcasts as explicit
`Emission` values listing the recipient socket ids.

Conventions:
- Prisma-generated row ids are modelled by a `nextId` counter in `DB`.
- `new Date()` timestamps are modelled by an explicit `now : Nat` argument.
- A service method whose `try/catch` converts any thrown error into
  `throw new Error("...")` is modelled as `Except String DB` returning the
  exact rethrown message; methods that can only fail on storage errors
  (never modelled) are total.
- Only the record fields the real-time core reads or writes are modelled.
-/

/-- A `directMessage` row: the pairwise-conversation record (Prisma model
`DirectMessage` with `user1Id`/`user2Id`). -/
structure DirectMessage where
  id : String
  user1Id : String
  user2Id : String
deriving DecidableEq, Repr

/-- A `message` row (fields the core touches). -/
structure MessageRec where
  id : String
  content : String
  userId : String
  channelId : Option String
  dmId : Option String
  threadId : Option String
  msgType : String
deriving DecidableEq, Repr

/-- A `channelMember` row: channel membership, the authority for access checks. -/
structure ChannelMember where
  channelId : String
  userId : String
deriving DecidableEq, Repr

/-- A `reaction` row, keyed by the unique `(messageId, userId, emoji)` triple. -/
structure Reaction where
  messageId : String
  userId : String
  emoji : String
deriving DecidableEq, Repr

/-- A `huddle` row; `status` is `"active"` or `"ended"`. -/
structure Huddle where
  id : String
  channelId : Option String
  creatorId : String
  status : String
  endedAt : Option Nat
deriving DecidableEq, Repr

/-- A `huddleParticipant` row, unique per `(huddleId, userId)`;
`leftAt = none` means the participant is currently active. -/
structure HuddleParticipant where
  id : String
  huddleId : String
  userId : String
  joinedAt : Nat
  leftAt : Option Nat
  audioMuted : Bool
  videoOn : Bool
deriving DecidableEq, Repr

/-- A `user` row (presence fields only). -/
structure UserRec where
  id : String
  status : String
  lastSeen : Nat
deriving DecidableEq, Repr

/-- The persistent store (Prisma tables as lists, insertion order preserved),
plus the id generator for created rows. -/
structure DB where
  directMessages : List DirectMessage
  messages : List MessageRec
  channelMembers : List ChannelMember
  reactions : List Reaction
  huddles : List Huddle
  huddleParticipants : List HuddleParticipant
  users : List UserRec
  nextId : Nat
deriving DecidableEq, Repr

/-- The empty store. -/
def emptyDB : DB := ⟨[], [], [], [], [], [], [], 0⟩

/-! ## Socket layer

One `Conn` per live socket; socket.io rooms are `(roomName, sid)` pairs.
On connection every socket joins its user's personal room (`socket.join(userId)`
in `initializeSocket`). An `Emission` records one `emit`: the event name, its
payload and the socket ids it is delivered to. -/

/-- A live socket connection with its authenticated user. -/
structure Conn where
  sid : Nat
  userId : String
deriving DecidableEq, Repr

/-- Socket-server state: connected sockets and room membership. -/
structure ServerState where
  conns : List Conn
  rooms : List (String × Nat)
deriving DecidableEq, Repr

/-- Payloads of the outbound events the embedding models. -/
inductive EvPayload where
  | newMessage (m : MessageRec)
  | messageDeleted (messageId : String)
  | reactionAdded (messageId : String) (r : Reaction)
  | reactionRemoved (messageId userId emoji : String)
  | statusChanged (userId status : String)
  | userJoinedHuddle (huddleId : String) (p : HuddleParticipant)
  | userLeftHuddle (huddleId userId : String)
  | huddleEnded (huddleId : String)
  | webrtcOffer (huddleId fromUserId offer : String)
  | webrtcAnswer (huddleId fromUserId answer : String)
  | webrtcIce (huddleId fromUserId candidate : String)
  | errorMsg (message : String)
deriving DecidableEq, Repr

/-- One delivered `emit`: event name, payload, recipient socket ids. -/
structure Emission where
  event : String
  payload : EvPayload
  recipients : List Nat
deriving DecidableEq, Repr

/-- `io.emit(...)`: every connected socket. -/
def allSids (st : ServerState) : List Nat :=
  st.conns.map (fun c => c.sid)

/-- `io.to(room).emit(...)`: every socket in the room. -/
def roomSids (st : ServerState) (room : String) : List Nat :=
  (st.rooms.filter (fun p => p.1 == room)).map (fun p => p.2)

/-- `socket.to(room).emit(...)`: every socket in the room except the sender. -/
def roomSidsExcept (st : ServerState) (room : String) (sid : Nat) : List Nat :=
  (st.rooms.filter (fun p => p.1 == room && p.2 != sid)).map (fun p => p.2)

/-- `socket.broadcast.emit(...)`: every connected socket except the sender. -/
def allSidsExcept (st : ServerState) (sid : Nat) : List Nat :=
  (st.conns.filter (fun c => c.sid != sid)).map (fun c => c.sid)

/-! ## MessageService -/

/-- Input of `MessageService.createMessage`. -/
structure CreateMessageData where
  content : String
  userId : String
  channelId : Option String
  dmUserId : Option String
  threadId : Option String
  msgType : Option String
deriving DecidableEq, Repr

/-- The `prisma.directMessage.findFirst` query in `createMessage`: first
conversation record matching the pair in either orientation. -/
def findDmPair (db : DB) (userId dmUserId : String) : Option DirectMessage :=
  db.directMessages.find? (fun d =>
    (d.user1Id == userId && d.user2Id == dmUserId) ||
    (d.user1Id == dmUserId && d.user2Id == userId))

/-- `prisma.message.create`: append the message row (with generated id,
`type` defaulting to `"text"`). Returns the new store and the created row. -/
def insertMessage (db : DB) (data : CreateMessageData) (dmId : Option String) :
    DB × MessageRec :=
  let m : MessageRec :=
    ⟨"msg" ++ toString db.nextId, data.content, data.userId,
      data.channelId, dmId, data.threadId, data.msgType.getD "text"⟩
  (⟨db.directMessages, db.messages ++ [m], db.channelMembers, db.reactions,
    db.huddles, db.huddleParticipants, db.users, db.nextId + 1⟩, m)

/-- `prisma.directMessage.create`: append a new conversation row with the
given orientation. -/
def insertDm (db : DB) (user1Id user2Id : String) : DB × DirectMessage :=
  let d : DirectMessage := ⟨"dm" ++ toString db.nextId, user1Id, user2Id⟩
  (⟨db.directMessages ++ [d], db.messages, db.channelMembers, db.reactions,
    db.huddles, db.huddleParticipants, db.users, db.nextId + 1⟩, d)

/-- The write phase of `MessageService.createMessage`, resumed after the
`findFirst` read whose result is `found`: reuse the found conversation,
otherwise create one; then create the message row. -/
def createMessageWithFind (db : DB) (data : CreateMessageData)
    (found : Option DirectMessage) : DB × MessageRec :=
  match data.dmUserId with
  | none => insertMessage db data none
  | some _ =>
    match found with
    | some d => insertMessage db data (some d.id)
    | none =>
      match data.dmUserId with
      | some dmUser =>
        let r := insertDm db data.userId dmUser
        insertMessage r.1 data (some r.2.id)
      | none => insertMessage db data none

/-- `MessageService.createMessage`: for a `dmUserId` target, find-or-create
the pairwise conversation (plain read-then-create, no uniqueness safety net),
then persist the message. No validation of `content` is performed. -/
def createMessage (db : DB) (data : CreateMessageData) : DB × MessageRec :=
  createMessageWithFind db data
    (match data.dmUserId with
     | some dmUser => findDmPair db data.userId dmUser
     | none => none)

/-- Two concurrent `createMessage` calls interleaved at their `await` points
so that both `findFirst` reads complete before either write: the schedule is
read₁, read₂, writes₁, writes₂, each call continuing with its own (now stale)
read result exactly as the source's branch logic does. -/
def createMessageRace (db : DB) (d1 d2 : CreateMessageData) :
    DB × MessageRec × MessageRec :=
  let found1 :=
    match d1.dmUserId with
    | some u => findDmPair db d1.userId u
    | none => none
  let found2 :=
    match d2.dmUserId with
    | some u => findDmPair db d2.userId u
    | none => none
  let r1 := createMessageWithFind db d1 found1
  let r2 := createMessageWithFind r1.1 d2 found2
  (r2.1, r1.2, r2.2)

/-- Number of conversation records for the unordered pair `{a, b}`. -/
def countDmPair (db : DB) (a b : String) : Nat :=
  (db.directMessages.filter (fun d =>
    (d.user1Id == a && d.user2Id == b) ||
    (d.user1Id == b && d.user2Id == a))).length

/-- `MessageService.canUserAccessChannel`: membership lookup on
`(channelId, userId)`. -/
def canUserAccessChannel (db : DB) (userId channelId : String) : Bool :=
  db.channelMembers.any (fun m => m.channelId == channelId && m.userId == userId)

/-- The `prisma.reaction.findUnique`-style lookup on the unique
`(messageId, userId, emoji)` triple. -/
def findReaction (db : DB) (messageId userId emoji : String) : Option Reaction :=
  db.reactions.find? (fun r =>
    r.messageId == messageId && r.userId == userId && r.emoji == emoji)

/-- `MessageService.addReaction`: a `prisma.reaction.upsert` on the unique
triple with an empty `update`, so an existing row is returned unchanged and
a missing row is created. -/
def addReaction (db : DB) (messageId userId emoji : String) : DB × Reaction :=
  match findReaction db messageId userId emoji with
  | some r => (db, r)
  | none =>
    let r : Reaction := ⟨messageId, userId, emoji⟩
    (⟨db.directMessages, db.messages, db.channelMembers, db.reactions ++ [r],
      db.huddles, db.huddleParticipants, db.users, db.nextId⟩, r)

/-- `MessageService.removeReaction`: `prisma.reaction.delete` on the unique
triple; deleting a missing row throws, which the method's `catch` rethrows
as `"Failed to remove reaction"`. -/
def removeReaction (db : DB) (messageId userId emoji : String) :
    Except String DB :=
  match findReaction db messageId userId emoji with
  | some _ =>
    Except.ok ⟨db.directMessages, db.messages, db.channelMembers,
      db.reactions.filter (fun r =>
        !(r.messageId == messageId && r.userId == userId && r.emoji == emoji)),
      db.huddles, db.huddleParticipants, db.users, db.nextId⟩
  | none => Except.error "Failed to remove reaction"

/-- `MessageService.deleteMessage`: author-only delete; a missing message or
an author mismatch throws, rethrown by the `catch` as
`"Failed to delete message"`. -/
def deleteMessage (db : DB) (messageId userId : String) : Except String DB :=
  match db.messages.find? (fun m => m.id == messageId) with
  | none => Except.error "Failed to delete message"
  | some m =>
    if m.userId == userId then
      Except.ok ⟨db.directMessages,
        db.messages.filter (fun x => !(x.id == messageId)),
        db.channelMembers, db.reactions, db.huddles, db.huddleParticipants,
        db.users, db.nextId⟩
    else Except.error "Failed to delete message"

/-! ## messageHandlers (socket event handlers) -/

/-- The `join-channel` handler: re-validates membership via
`canUserAccessChannel`; on success `socket.join(channelId)`, on failure the
request is dropped (the `catch` that emits an `error` event fires only on a
thrown exception, not on a plain access denial). Returns the new server
state and the emissions. -/
def joinChannelHandler (db : DB) (st : ServerState) (sid : Nat)
    (userId channelId : String) : ServerState × List Emission :=
  if canUserAccessChannel db userId channelId then
    (⟨st.conns, (channelId, sid) :: st.rooms⟩, [])
  else
    (st, [])

/-- The `send-message` handler: persists via `createMessage` (which never
validates the body), then emits `new-message` to the channel room, or for a
DM to both users' personal rooms. -/
def sendMessageHandler (db : DB) (st : ServerState) (sid : Nat)
    (userId content : String) (channelId dmUserId threadId : Option String) :
    DB × List Emission :=
  let r := createMessage db ⟨content, userId, channelId, dmUserId, threadId, none⟩
  match channelId with
  | some ch => (r.1, [⟨"new-message", EvPayload.newMessage r.2, roomSids st ch⟩])
  | none =>
    match dmUserId with
    | some dmu =>
      (r.1, [⟨"new-message", EvPayload.newMessage r.2, roomSids st userId⟩,
             ⟨"new-message", EvPayload.newMessage r.2, roomSids st dmu⟩])
    | none => (r.1, [])

/-- The `delete-message` handler: on success emits `message-deleted` with the
message id via `io.emit`, i.e. to every connected socket; on failure emits an
`error` event to the requester only. -/
def deleteMessageHandler (db : DB) (st : ServerState) (sid : Nat)
    (userId messageId : String) : DB × List Emission :=
  match deleteMessage db messageId userId with
  | Except.ok db1 =>
    (db1, [⟨"message-deleted", EvPayload.messageDeleted messageId, allSids st⟩])
  | Except.error e => (db, [⟨"error", EvPayload.errorMsg e, [sid]⟩])

/-- The `add-reaction` handler: persists via `addReaction`, then emits
`reaction-added` via `io.emit`, i.e. to every connected socket. -/
def addReactionHandler (db : DB) (st : ServerState) (sid : Nat)
    (userId messageId emoji : String) : DB × List Emission :=
  let r := addReaction db messageId userId emoji
  (r.1, [⟨"reaction-added", EvPayload.reactionAdded messageId r.2, allSids st⟩])

/-- The `remove-reaction` handler: on success emits `reaction-removed` via
`io.emit`, i.e. to every connected socket; on failure emits an `error` event
to the requester only. -/
def removeReactionHandler (db : DB) (st : ServerState) (sid : Nat)
    (userId messageId emoji : String) : DB × List Emission :=
  match removeReaction db messageId userId emoji with
  | Except.ok db1 =>
    (db1, [⟨"reaction-removed", EvPayload.reactionRemoved messageId userId emoji,
           allSids st⟩])
  | Except.error e => (db, [⟨"error", EvPayload.errorMsg e, [sid]⟩])

/-! ## HuddleService -/

/-- The `prisma.huddleParticipant.findUnique` lookup on the unique
`(huddleId, userId)` pair. -/
def findParticipant (db : DB) (huddleId userId : String) :
    Option HuddleParticipant :=
  db.huddleParticipants.find? (fun p =>
    p.huddleId == huddleId && p.userId == userId)

/-- `HuddleService.joinHuddle`: if an active participant row exists, return
it; if a left row exists, reactivate it (clear `leftAt`, reset flags);
otherwise create a new row. The huddle's own record — in particular its
`status` — is never consulted. -/
def joinHuddle (db : DB) (huddleId userId : String) (now : Nat) :
    DB × HuddleParticipant :=
  match findParticipant db huddleId userId with
  | some p =>
    if p.leftAt == none then (db, p)
    else
      let p1 : HuddleParticipant :=
        ⟨p.id, p.huddleId, p.userId, now, none, false, false⟩
      (⟨db.directMessages, db.messages, db.channelMembers, db.reactions,
        db.huddles,
        db.huddleParticipants.map (fun x => if x.id == p.id then p1 else x),
        db.users, db.nextId⟩, p1)
  | none =>
    let p1 : HuddleParticipant :=
      ⟨"hp" ++ toString db.nextId, huddleId, userId, now, none, false, false⟩
    (⟨db.directMessages, db.messages, db.channelMembers, db.reactions,
      db.huddles, db.huddleParticipants ++ [p1], db.users, db.nextId + 1⟩, p1)

/-- The `status` of a huddle record, if the huddle exists. -/
def huddleStatus (db : DB) (huddleId : String) : Option String :=
  (db.huddles.find? (fun h => h.id == huddleId)).map (fun h => h.status)

/-- `true` iff the user has an active (not-left) participant row in the
huddle — the `getHuddleParticipants` notion of current membership. -/
def isHuddleParticipant (db : DB) (huddleId userId : String) : Bool :=
  db.huddleParticipants.any (fun p =>
    p.huddleId == huddleId && p.userId == userId && p.leftAt == none)

/-- `HuddleService.endHuddle`: creator-only; a missing huddle or a
non-creator caller throws, rethrown by the `catch` as
`"Failed to end huddle"`. On success the huddle's status becomes `"ended"`
(with `endedAt` set) and every active participant row gets `leftAt` set. -/
def endHuddle (db : DB) (huddleId userId : String) (now : Nat) :
    Except String DB :=
  match db.huddles.find? (fun h => h.id == huddleId) with
  | none => Except.error "Failed to end huddle"
  | some h =>
    if h.creatorId == userId then
      Except.ok ⟨db.directMessages, db.messages, db.channelMembers,
        db.reactions,
        db.huddles.map (fun x =>
          if x.id == huddleId then
            ⟨x.id, x.channelId, x.creatorId, "ended", some now⟩
          else x),
        db.huddleParticipants.map (fun p =>
          if p.huddleId == huddleId && p.leftAt == none then
            ⟨p.id, p.huddleId, p.userId, p.joinedAt, some now,
              p.audioMuted, p.videoOn⟩
          else p),
        db.users, db.nextId⟩
    else Except.error "Failed to end huddle"

/-! ## huddleHandlers: WebRTC signaling relay

The `webrtc-offer`, `webrtc-answer` and `webrtc-ice-candidate` handlers call
no service and touch no storage: they take no `DB` at all. Each forwards its
payload unmodified via `socket.to(targetUserId)` — the recipient's personal
room, excluding the sender's own socket — with `fromUserId` set to the
sender. No participant or huddle check of any kind is performed. -/

/-- The `webrtc-offer` handler. -/
def webrtcOfferHandler (st : ServerState) (sid : Nat)
    (senderUserId huddleId targetUserId offer : String) : List Emission :=
  [⟨"webrtc-offer", EvPayload.webrtcOffer huddleId senderUserId offer,
    roomSidsExcept st targetUserId sid⟩]

/-- The `webrtc-answer` handler. -/
def webrtcAnswerHandler (st : ServerState) (sid : Nat)
    (senderUserId huddleId targetUserId answer : String) : List Emission :=
  [⟨"webrtc-answer", EvPayload.webrtcAnswer huddleId senderUserId answer,
    roomSidsExcept st targetUserId sid⟩]

/-- The `webrtc-ice-candidate` handler. -/
def webrtcIceHandler (st : ServerState) (sid : Nat)
    (senderUserId huddleId targetUserId candidate : String) : List Emission :=
  [⟨"webrtc-ice-candidate", EvPayload.webrtcIce huddleId senderUserId candidate,
    roomSidsExcept st targetUserId sid⟩]

/-! ## presenceHandlers and disconnect -/

/-- `prisma.user.update` setting a user's presence status and `lastSeen`. -/
def updateUserStatus (db : DB) (userId status : String) (now : Nat) : DB :=
  ⟨db.directMessages, db.messages, db.channelMembers, db.reactions,
    db.huddles, db.huddleParticipants,
    db.users.map (fun u => if u.id == userId then ⟨u.id, status, now⟩ else u),
    db.nextId⟩

/-- The presence status of a user, if the user record exists. -/
def getUserStatus (db : DB) (userId : String) : Option String :=
  (db.users.find? (fun u => u.id == userId)).map (fun u => u.status)

/-- The `disconnect` handler registered by `presenceHandlers`: sets the
user's status to `"offline"` unconditionally (no check for other live
connections of the same user) and broadcasts `user-status-changed` to every
other socket. If the `prisma.user.update` throws (user record missing) the
`catch` only logs, so nothing is broadcast. -/
def presenceDisconnect (db : DB) (st : ServerState) (sid : Nat)
    (userId : String) (now : Nat) : DB × List Emission :=
  if db.users.any (fun u => u.id == userId) then
    (updateUserStatus db userId "offline" now,
     [⟨"user-status-changed", EvPayload.statusChanged userId "offline",
       allSidsExcept st sid⟩])
  else (db, [])

/-- Everything the server does when a socket disconnects: the
`initializeSocket` disconnect handler only logs; `presenceHandlers`'s
disconnect handler runs `presenceDisconnect`; `messageHandlers` and
`huddleHandlers` register no disconnect handler at all, so no huddle
leave-on-behalf-of happens. socket.io itself removes the socket from the
connection list and from all rooms. Returns (db, server state, emissions). -/
def onDisconnect (db : DB) (st : ServerState) (sid : Nat) (userId : String)
    (now : Nat) : DB × ServerState × List Emission :=
  let r := presenceDisconnect db st sid userId now
  (r.1,
   ⟨st.conns.filter (fun c => c.sid != sid),
    st.rooms.filter (fun p => p.2 != sid)⟩,
   r.2)

/-- Number of reaction records for the `(messageId, userId, emoji)` triple. -/
def countReaction (db : DB) (messageId userId emoji : String) : Nat :=
  (db.reactions.filter (fun r =>
    r.messageId == messageId && r.userId == userId && r.emoji == emoji)).length

/-! ## Theorems -/

/-- C1: the claim states that for every unordered pair of users at most one
pairwise conversation record exists, even for two first messages sent
concurrently. Sequentially the find-or-create does guarantee this (last
conjunct: a second first-message reuses the record, count stays 1), but the
source is a plain read-then-create with no uniqueness safety net: under the
interleaving in which both `findFirst` reads run before either create (the
schedule `createMessageRace` models), two conversation records for the pair
{alice, bob} are created, and the two messages point at different
conversation ids — the code violates the claimed invariant, exactly the
latent defect the design notes flag for the find-or-create race. -/
theorem c1_concurrent_first_messages_create_two_conversations :
    countDmPair (createMessageRace emptyDB
      ⟨"hi", "alice", none, some "bob", none, none⟩
      ⟨"yo", "bob", none, some "alice", none, none⟩).1 "alice" "bob" = 2 ∧
    (createMessageRace emptyDB
      ⟨"hi", "alice", none, some "bob", none, none⟩
      ⟨"yo", "bob", none, some "alice", none, none⟩).2.1.dmId = some "dm0" ∧
    (createMessageRace emptyDB
      ⟨"hi", "alice", none, some "bob", none, none⟩
      ⟨"yo", "bob", none, some "alice", none, none⟩).2.2.dmId = some "dm2" ∧
    countDmPair (createMessage (createMessage emptyDB
      ⟨"hi", "alice", none, some "bob", none, none⟩).1
      ⟨"yo", "bob", none, some "alice", none, none⟩).1 "alice" "bob" = 1 :=
  ⟨rfl, rfl, rfl, rfl⟩

/-- C10: a successful delete-message emits `message-deleted` carrying the
deleted message's id with recipient list `allSids st` — every connected
socket in the process, with no scoping to the room of the channel or
conversation the message belonged to. -/
theorem c10_delete_broadcast_to_all_connections (db db1 : DB)
    (st : ServerState) (sid : Nat) (userId messageId : String)
    (h : deleteMessage db messageId userId = Except.ok db1) :
    deleteMessageHandler db st sid userId messageId =
      (db1, [⟨"message-deleted", EvPayload.messageDeleted messageId,
             allSids st⟩]) := by
  unfold deleteMessageHandler
  rw [h]

/-- C10 witness: a store with message `m1` authored by alice in channel
`general`, and a server with carol's socket (sid 3) connected but not in the
`general` room; the delete still reaches all of sids 1, 2 and 3. -/
theorem c10_delete_broadcast_witness :
    deleteMessage
      ⟨[], [⟨"m1", "hello", "alice", some "general", none, none, "text"⟩],
       [⟨"general", "alice"⟩, ⟨"general", "bob"⟩], [], [], [], [], 1⟩
      "m1" "alice" =
      Except.ok ⟨[], [], [⟨"general", "alice"⟩, ⟨"general", "bob"⟩],
        [], [], [], [], 1⟩ ∧
    deleteMessageHandler
      ⟨[], [⟨"m1", "hello", "alice", some "general", none, none, "text"⟩],
       [⟨"general", "alice"⟩, ⟨"general", "bob"⟩], [], [], [], [], 1⟩
      ⟨[⟨1, "alice"⟩, ⟨2, "bob"⟩, ⟨3, "carol"⟩],
       [("general", 1), ("general", 2), ("alice", 1), ("bob", 2),
        ("carol", 3)]⟩
      1 "alice" "m1" =
      (⟨[], [], [⟨"general", "alice"⟩, ⟨"general", "bob"⟩], [], [], [], [], 1⟩,
       [⟨"message-deleted", EvPayload.messageDeleted "m1", [1, 2, 3]⟩]) :=
  ⟨rfl, by
    have h := c10_delete_broadcast_to_all_connections
      ⟨[], [⟨"m1", "hello", "alice", some "general", none, none, "text"⟩],
       [⟨"general", "alice"⟩, ⟨"general", "bob"⟩], [], [], [], [], 1⟩
      ⟨[], [], [⟨"general", "alice"⟩, ⟨"general", "bob"⟩], [], [], [], [], 1⟩
      ⟨[⟨1, "alice"⟩, ⟨2, "bob"⟩, ⟨3, "carol"⟩],
       [("general", 1), ("general", 2), ("alice", 1), ("bob", 2),
        ("carol", 3)]⟩
      1 "alice" "m1" rfl
    simpa using h⟩

/-- C3 counterexample: the claim states an empty body fails with
ValidationError, creates no record and broadcasts nothing. Sending the empty
body `""` to channel `general` instead persists a message record with empty
content and broadcasts `new-message` to the room (sids 1 and 2); no error
event is emitted. -/
theorem c3_empty_body_persisted_and_broadcast :
    ((sendMessageHandler emptyDB
      ⟨[⟨1, "alice"⟩, ⟨2, "bob"⟩],
       [("general", 1), ("general", 2), ("alice", 1), ("bob", 2)]⟩
      1 "alice" "" (some "general") none none).1).messages =
      [⟨"msg0", "", "alice", some "general", none, none, "text"⟩] ∧
    (sendMessageHandler emptyDB
      ⟨[⟨1, "alice"⟩, ⟨2, "bob"⟩],
       [("general", 1), ("general", 2), ("alice", 1), ("bob", 2)]⟩
      1 "alice" "" (some "general") none none).2 =
      [⟨"new-message",
        EvPayload.newMessage ⟨"msg0", "", "alice", some "general", none, none,
          "text"⟩, [1, 2]⟩] :=
  ⟨rfl, rfl⟩

/-- C3 amended: no validation of the message body is performed anywhere on
the send path. For every body — empty, oversized or otherwise — the
channel-targeted send persists a message row carrying exactly that body and
emits a single `new-message` to the channel room; the operation never fails
with a ValidationError. -/
theorem c3_no_body_validation (db : DB) (st : ServerState) (sid : Nat)
    (userId content ch : String) (threadId : Option String) :
    ((sendMessageHandler db st sid userId content (some ch) none threadId).1).messages
      = db.messages ++
        [⟨"msg" ++ toString db.nextId, content, userId, some ch, none,
          threadId, "text"⟩] ∧
    (sendMessageHandler db st sid userId content (some ch) none threadId).2 =
      [⟨"new-message",
        EvPayload.newMessage ⟨"msg" ++ toString db.nextId, content, userId,
          some ch, none, threadId, "text"⟩, roomSids st ch⟩] :=
  ⟨rfl, rfl⟩

/-- C4 counterexample: the claim states an unauthorized join-group attempt is
reported privately to the requester as an AccessDenied error. With carol not
a member of `general`, the join-channel handler emits no event at all — the
emission list is empty, so in particular no error event reaches the
requester; the attempt is silently dropped. -/
theorem c4_unauthorized_join_emits_nothing :
    canUserAccessChannel emptyDB "carol" "general" = false ∧
    (joinChannelHandler emptyDB
      ⟨[⟨1, "alice"⟩, ⟨3, "carol"⟩], [("general", 1), ("alice", 1), ("carol", 3)]⟩
      3 "carol" "general").2 = [] :=
  ⟨rfl, rfl⟩

/-- C4 amended: a join-group request by a non-member leaves the room state
unchanged (the connection is not added to the broadcast group) and emits
nothing to anyone — neither a broadcast nor any private error event to the
requester; the failure is silent. -/
theorem c4_unauthorized_join_silent (db : DB) (st : ServerState) (sid : Nat)
    (userId channelId : String)
    (h : canUserAccessChannel db userId channelId = false) :
    joinChannelHandler db st sid userId channelId = (st, []) := by
  simp [joinChannelHandler, h]

/-- C4 witness: carol (sid 3) is not a member of `general`; her join attempt
leaves the server state unchanged and produces no emissions. -/
theorem c4_unauthorized_join_silent_witness :
    canUserAccessChannel emptyDB "carol" "general" = false ∧
    joinChannelHandler emptyDB
      ⟨[⟨1, "alice"⟩, ⟨3, "carol"⟩], [("general", 1), ("alice", 1), ("carol", 3)]⟩
      3 "carol" "general" =
      (⟨[⟨1, "alice"⟩, ⟨3, "carol"⟩], [("general", 1), ("alice", 1), ("carol", 3)]⟩,
       []) :=
  ⟨rfl,
   c4_unauthorized_join_silent emptyDB
     ⟨[⟨1, "alice"⟩, ⟨3, "carol"⟩], [("general", 1), ("alice", 1), ("carol", 3)]⟩
     3 "carol" "general" rfl⟩

/-- C7 counterexample: the claim states a signaling payload is forwarded only
if the sender is currently a participant of the named huddle. With an empty
store — alice is not a participant of `h1` (nor of anything) — her
`webrtc-offer` is still relayed to bob's personal room (sid 2). -/
theorem c7_relay_without_participation :
    isHuddleParticipant emptyDB "h1" "alice" = false ∧
    webrtcOfferHandler
      ⟨[⟨1, "alice"⟩, ⟨2, "bob"⟩], [("alice", 1), ("bob", 2)]⟩
      1 "alice" "h1" "bob" "sdp-offer" =
      [⟨"webrtc-offer", EvPayload.webrtcOffer "h1" "alice" "sdp-offer", [2]⟩] :=
  ⟨rfl, rfl⟩

/-- C7 amended: every signaling-relay message (offer, answer, or network-path
candidate) is forwarded unmodified and unpersisted (the handlers take no
store at all) to the named recipient's personal room, excluding the sender's
own socket, with `fromUserId` set to the sender — unconditionally: no check
of the sender's huddle participation (or of anything else) is performed. -/
theorem c7_relay_unconditional_point_to_point (st : ServerState) (sid : Nat)
    (sender huddleId target offer answer candidate : String) :
    webrtcOfferHandler st sid sender huddleId target offer =
      [⟨"webrtc-offer", EvPayload.webrtcOffer huddleId sender offer,
        roomSidsExcept st target sid⟩] ∧
    webrtcAnswerHandler st sid sender huddleId target answer =
      [⟨"webrtc-answer", EvPayload.webrtcAnswer huddleId sender answer,
        roomSidsExcept st target sid⟩] ∧
    webrtcIceHandler st sid sender huddleId target candidate =
      [⟨"webrtc-ice-candidate", EvPayload.webrtcIce huddleId sender candidate,
        roomSidsExcept st target sid⟩] :=
  ⟨rfl, rfl, rfl⟩

/-- C9 counterexample: the claim states that a huddle participant's
disconnect triggers an implicit leave, marking the participant as left and
notifying the remaining members with a participant-left event. With huddle
`h1` active and alice (sid 1) and bob (sid 2) both active participants,
bob's abrupt disconnect leaves the participant rows untouched — bob is still
an active participant — and no `user-left-huddle` event is emitted to
anyone (only the presence offline broadcast happens). -/
theorem c9_disconnect_no_implicit_leave :
    ((onDisconnect
      ⟨[], [], [], [], [⟨"h1", none, "alice", "active", none⟩],
       [⟨"hp0", "h1", "alice", 0, none, false, false⟩,
        ⟨"hp1", "h1", "bob", 1, none, false, false⟩],
       [⟨"alice", "online", 0⟩, ⟨"bob", "online", 0⟩], 2⟩
      ⟨[⟨1, "alice"⟩, ⟨2, "bob"⟩],
       [("alice", 1), ("bob", 2), ("huddle:h1", 1), ("huddle:h1", 2)]⟩
      2 "bob" 5).1).huddleParticipants =
      [⟨"hp0", "h1", "alice", 0, none, false, false⟩,
       ⟨"hp1", "h1", "bob", 1, none, false, false⟩] ∧
    isHuddleParticipant (onDisconnect
      ⟨[], [], [], [], [⟨"h1", none, "alice", "active", none⟩],
       [⟨"hp0", "h1", "alice", 0, none, false, false⟩,
        ⟨"hp1", "h1", "bob", 1, none, false, false⟩],
       [⟨"alice", "online", 0⟩, ⟨"bob", "online", 0⟩], 2⟩
      ⟨[⟨1, "alice"⟩, ⟨2, "bob"⟩],
       [("alice", 1), ("bob", 2), ("huddle:h1", 1), ("huddle:h1", 2)]⟩
      2 "bob" 5).1 "h1" "bob" = true ∧
    ((onDisconnect
      ⟨[], [], [], [], [⟨"h1", none, "alice", "active", none⟩],
       [⟨"hp0", "h1", "alice", 0, none, false, false⟩,
        ⟨"hp1", "h1", "bob", 1, none, false, false⟩],
       [⟨"alice", "online", 0⟩, ⟨"bob", "online", 0⟩], 2⟩
      ⟨[⟨1, "alice"⟩, ⟨2, "bob"⟩],
       [("alice", 1), ("bob", 2), ("huddle:h1", 1), ("huddle:h1", 2)]⟩
      2 "bob" 5).2.2).filter (fun e => e.event == "user-left-huddle") = [] :=
  ⟨rfl, rfl, rfl⟩

/-- C9 amended: disconnect performs no huddle cleanup at all — no handler
registers an implicit leave. For every store and server state, disconnect
leaves every huddle-participant row exactly as it was and emits no
`user-left-huddle` event to anyone; only the presence handler runs. -/
theorem c9_disconnect_leaves_huddle_state_unchanged (db : DB)
    (st : ServerState) (sid : Nat) (userId : String) (now : Nat) :
    ((onDisconnect db st sid userId now).1).huddleParticipants =
      db.huddleParticipants ∧
    ((onDisconnect db st sid userId now).2.2).filter
      (fun e => e.event == "user-left-huddle") = [] := by
  unfold onDisconnect presenceDisconnect updateUserStatus
  by_cases h : db.users.any (fun u => u.id == userId) = true
  · simp [h]
  · simp [h]

/-- C6: reaction events are claimed (by the spec and by the handlers' own
comments, "Emit to all subscribers of the message's room") to be scoped to
the group the reacted-to message belongs to. Message `m1` lives in channel
`general`, whose room holds only sids 1 and 2; carol's socket (sid 3) is
connected but outside that room, yet both the `reaction-added` and the
`reaction-removed` broadcasts are delivered to sids 1, 2 AND 3 — the
handlers use a global emit, so connections outside the message's group do
receive the events. -/
theorem c6_reaction_events_leak_outside_group :
    roomSids
      ⟨[⟨1, "alice"⟩, ⟨2, "bob"⟩, ⟨3, "carol"⟩],
       [("general", 1), ("general", 2), ("alice", 1), ("bob", 2),
        ("carol", 3)]⟩ "general" = [1, 2] ∧
    (addReactionHandler
      ⟨[], [⟨"m1", "hello", "alice", some "general", none, none, "text"⟩],
       [⟨"general", "alice"⟩, ⟨"general", "bob"⟩], [], [], [], [], 1⟩
      ⟨[⟨1, "alice"⟩, ⟨2, "bob"⟩, ⟨3, "carol"⟩],
       [("general", 1), ("general", 2), ("alice", 1), ("bob", 2),
        ("carol", 3)]⟩
      1 "alice" "m1" "thumbsup").2 =
      [⟨"reaction-added",
        EvPayload.reactionAdded "m1" ⟨"m1", "alice", "thumbsup"⟩,
        [1, 2, 3]⟩] ∧
    (removeReactionHandler
      ⟨[], [⟨"m1", "hello", "alice", some "general", none, none, "text"⟩],
       [⟨"general", "alice"⟩, ⟨"general", "bob"⟩],
       [⟨"m1", "alice", "thumbsup"⟩], [], [], [], 1⟩
      ⟨[⟨1, "alice"⟩, ⟨2, "bob"⟩, ⟨3, "carol"⟩],
       [("general", 1), ("general", 2), ("alice", 1), ("bob", 2),
        ("carol", 3)]⟩
      1 "alice" "m1" "thumbsup").2 =
      [⟨"reaction-removed",
        EvPayload.reactionRemoved "m1" "alice" "thumbsup",
        [1, 2, 3]⟩] :=
  ⟨rfl, rfl, rfl⟩

/-- C5 amended: adding a reaction that already exists is indeed treated as
"already present" — the store is returned unchanged and the per-triple count
never exceeds one — but removing a reaction that does not exist is NOT a
successful no-op: the delete of the missing unique row throws and the
operation fails with "Failed to remove reaction". -/
theorem c5_reaction_add_idempotent_remove_fails (db : DB)
    (messageId userId emoji : String) :
    (∀ r, findReaction db messageId userId emoji = some r →
      (addReaction db messageId userId emoji).1 = db) ∧
    (countReaction db messageId userId emoji ≤ 1 →
      countReaction (addReaction db messageId userId emoji).1
        messageId userId emoji ≤ 1) ∧
    (findReaction db messageId userId emoji = none →
      removeReaction db messageId userId emoji =
        Except.error "Failed to remove reaction") := by
  refine ⟨?_, ?_, ?_⟩
  · intro r h
    unfold addReaction
    rw [h]
  · intro hle
    unfold addReaction
    cases hf : findReaction db messageId userId emoji with
    | some r => exact hle
    | none =>
      have hzero : countReaction db messageId userId emoji = 0 := by
        unfold countReaction
        rw [List.length_eq_zero]
        exact List.filter_eq_nil.mpr (List.find?_eq_none.mp hf)
      unfold countReaction at hzero ⊢
      simp only [List.filter_append, List.length_append, hzero]
      simp
  · intro h
    unfold removeReaction
    rw [h]

/-- C5 witness: for a store holding the single reaction
(m1, alice, thumbsup), re-adding it returns the store unchanged and the
triple's count stays at one; removing the same triple from the empty store
fails with the remove error rather than succeeding. -/
theorem c5_reaction_add_idempotent_remove_fails_witness :
    (addReaction ⟨[], [], [], [⟨"m1", "alice", "thumbsup"⟩], [], [], [], 0⟩
      "m1" "alice" "thumbsup").1 =
      ⟨[], [], [], [⟨"m1", "alice", "thumbsup"⟩], [], [], [], 0⟩ ∧
    countReaction (addReaction
      ⟨[], [], [], [⟨"m1", "alice", "thumbsup"⟩], [], [], [], 0⟩
      "m1" "alice" "thumbsup").1 "m1" "alice" "thumbsup" ≤ 1 ∧
    removeReaction emptyDB "m1" "alice" "thumbsup" =
      Except.error "Failed to remove reaction" :=
  ⟨(c5_reaction_add_idempotent_remove_fails
      ⟨[], [], [], [⟨"m1", "alice", "thumbsup"⟩], [], [], [], 0⟩
      "m1" "alice" "thumbsup").1 ⟨"m1", "alice", "thumbsup"⟩ rfl,
   (c5_reaction_add_idempotent_remove_fails
      ⟨[], [], [], [⟨"m1", "alice", "thumbsup"⟩], [], [], [], 0⟩
      "m1" "alice" "thumbsup").2.1 (by decide),
   (c5_reaction_add_idempotent_remove_fails emptyDB
      "m1" "alice" "thumbsup").2.2 rfl⟩

/-- C5 counterexample: the claim states that removing a reaction that does
not exist is a no-op that succeeds. On the empty store the removal instead
fails with "Failed to remove reaction" (the thrown delete error). -/
theorem c5_remove_missing_reaction_errors :
    removeReaction emptyDB "m1" "alice" "thumbsup" =
      Except.error "Failed to remove reaction" :=
  rfl

/-- Helper for C8: after mapping the offline-update over the user table, the
lookup of a present user finds a record with the written status. -/
lemma find?_status_after_update (l : List UserRec) (userId s : String)
    (now : Nat) (h : l.any (fun u => u.id == userId) = true) :
    ((l.map (fun u => if u.id == userId then
        (⟨u.id, s, now⟩ : UserRec) else u)).find?
      (fun u => u.id == userId)).map (fun u => u.status) = some s := by
  induction l with
  | nil => simp at h
  | cons a l ih =>
    cases ha : (a.id == userId) with
    | true =>
      simp only [List.map_cons, ha, if_true]
      rw [List.find?_cons_of_pos _ (by simpa using ha)]
      rfl
    | false =>
      simp only [List.map_cons, ha, if_false]
      rw [List.find?_cons_of_neg _ (by simp [ha])]
      apply ih
      simpa [ha] using h

/-- C8 counterexample: the claim states a disconnect leaves the user's
presence untouched when another live connection of the same identity
remains. Alice has two live sockets (sids 1 and 2); the disconnect of sid 1
nevertheless flips her status from online to offline and broadcasts the
status change to every other socket. -/
theorem c8_disconnect_overrides_remaining_connection :
    ((⟨2, "alice"⟩ : Conn) ∈
      (⟨[⟨1, "alice"⟩, ⟨2, "alice"⟩], [("alice", 1), ("alice", 2)]⟩ :
        ServerState).conns) ∧
    getUserStatus (onDisconnect
      ⟨[], [], [], [], [], [], [⟨"alice", "online", 0⟩], 0⟩
      ⟨[⟨1, "alice"⟩, ⟨2, "alice"⟩], [("alice", 1), ("alice", 2)]⟩
      1 "alice" 9).1 "alice" = some "offline" ∧
    (onDisconnect
      ⟨[], [], [], [], [], [], [⟨"alice", "online", 0⟩], 0⟩
      ⟨[⟨1, "alice"⟩, ⟨2, "alice"⟩], [("alice", 1), ("alice", 2)]⟩
      1 "alice" 9).2.2 =
      [⟨"user-status-changed", EvPayload.statusChanged "alice" "offline",
        [2]⟩] :=
  ⟨by simp, rfl, rfl⟩

/-- C8 amended: a disconnecting socket always marks its user offline and
broadcasts `user-status-changed` to every other connected socket,
unconditionally — even when another live connection of the same identity
remains (`c` below), the user's presence becomes offline. -/
theorem c8_disconnect_always_marks_offline (db : DB) (st : ServerState)
    (sid : Nat) (userId : String) (now : Nat) (c : Conn)
    (hc : c ∈ st.conns) (hcu : c.userId = userId) (hcs : c.sid ≠ sid)
    (hu : db.users.any (fun u => u.id == userId) = true) :
    getUserStatus (onDisconnect db st sid userId now).1 userId =
      some "offline" ∧
    (onDisconnect db st sid userId now).2.2 =
      [⟨"user-status-changed", EvPayload.statusChanged userId "offline",
        allSidsExcept st sid⟩] := by
  unfold onDisconnect presenceDisconnect
  simp only [hu, if_true]
  refine ⟨?_, trivial⟩
  unfold getUserStatus updateUserStatus
  exact find?_status_after_update db.users userId "offline" now hu

/-- C8 witness: alice's store record is online and she has a second live
socket (sid 2) distinct from the disconnecting sid 1; the disconnect still
reports her offline and broadcasts the change to sid 2. -/
theorem c8_disconnect_always_marks_offline_witness :
    getUserStatus (onDisconnect
      ⟨[], [], [], [], [], [], [⟨"alice", "online", 0⟩], 0⟩
      ⟨[⟨1, "alice"⟩, ⟨2, "alice"⟩], [("alice", 1), ("alice", 2)]⟩
      1 "alice" 9).1 "alice" = some "offline" ∧
    (onDisconnect
      ⟨[], [], [], [], [], [], [⟨"alice", "online", 0⟩], 0⟩
      ⟨[⟨1, "alice"⟩, ⟨2, "alice"⟩], [("alice", 1), ("alice", 2)]⟩
      1 "alice" 9).2.2 =
      [⟨"user-status-changed", EvPayload.statusChanged "alice" "offline",
        allSidsExcept
          ⟨[⟨1, "alice"⟩, ⟨2, "alice"⟩], [("alice", 1), ("alice", 2)]⟩ 1⟩] :=
  c8_disconnect_always_marks_offline
    ⟨[], [], [], [], [], [], [⟨"alice", "online", 0⟩], 0⟩
    ⟨[⟨1, "alice"⟩, ⟨2, "alice"⟩], [("alice", 1), ("alice", 2)]⟩
    1 "alice" 9 ⟨2, "alice"⟩ (by simp) rfl (by decide) rfl

/-- Helper for C2: `joinHuddle` always hands back an active participant row
(`leftAt = none`), whatever the store contains. -/
lemma joinHuddle_result_active (db : DB) (huddleId userId : String)
    (now : Nat) : (joinHuddle db huddleId userId now).2.leftAt = none := by
  unfold joinHuddle
  cases hf : findParticipant db huddleId userId with
  | none => rfl
  | some p =>
    cases hl : (p.leftAt == none) with
    | true =>
      simp only [hl]
      simp only [if_true]
      exact eq_of_beq hl
    | false =>
      simp [hl]

/-- Helper for C2: after `joinHuddle`, the user has an active participant row
in the huddle, whatever the store contained before. -/
lemma joinHuddle_makes_participant (db : DB) (huddleId userId : String)
    (now : Nat) :
    isHuddleParticipant (joinHuddle db huddleId userId now).1
      huddleId userId = true := by
  unfold joinHuddle
  cases hf : findParticipant db huddleId userId with
  | none =>
    unfold isHuddleParticipant
    simp only [List.any_append]
    simp
  | some p =>
    have hf2 : db.huddleParticipants.find?
        (fun q => q.huddleId == huddleId && q.userId == userId) = some p := hf
    have hpk := List.find?_some hf2
    simp only [Bool.and_eq_true] at hpk
    have hmem : p ∈ db.huddleParticipants :=
      List.mem_of_find?_eq_some hf2
    obtain ⟨hph, hpu⟩ := hpk
    cases hl : (p.leftAt == none) with
    | true =>
      simp only [hl]
      simp only [if_true]
      unfold isHuddleParticipant
      exact List.any_eq_true.mpr ⟨p, hmem, by simp [hph, hpu, hl]⟩
    | false =>
      simp only [hl]
      simp only [Bool.false_eq_true, if_false]
      unfold isHuddleParticipant
      refine List.any_eq_true.mpr ?_
      refine ⟨⟨p.id, p.huddleId, p.userId, now, none, false, false⟩,
        List.mem_map.mpr ⟨p, hmem, by simp⟩, ?_⟩
      simp [hph, hpu]

/-- C2 counterexample: the claim states that once a huddle is ended, any
subsequent join attempt fails with a terminal-state error. Huddle `h1`
(creator alice) is ended by alice — its status becomes `"ended"` and alice's
participant row is marked left — yet bob's subsequent `joinHuddle` succeeds:
it returns an active participant row and bob becomes an active participant
of the ended huddle. -/
theorem c2_join_after_end_succeeds :
    endHuddle
      ⟨[], [], [], [], [⟨"h1", none, "alice", "active", none⟩],
       [⟨"hp0", "h1", "alice", 0, none, false, false⟩], [], 1⟩
      "h1" "alice" 5 =
      Except.ok ⟨[], [], [], [], [⟨"h1", none, "alice", "ended", some 5⟩],
        [⟨"hp0", "h1", "alice", 0, some 5, false, false⟩], [], 1⟩ ∧
    huddleStatus
      ⟨[], [], [], [], [⟨"h1", none, "alice", "ended", some 5⟩],
       [⟨"hp0", "h1", "alice", 0, some 5, false, false⟩], [], 1⟩ "h1" =
      some "ended" ∧
    (joinHuddle
      ⟨[], [], [], [], [⟨"h1", none, "alice", "ended", some 5⟩],
       [⟨"hp0", "h1", "alice", 0, some 5, false, false⟩], [], 1⟩
      "h1" "bob" 7).2.leftAt = none ∧
    isHuddleParticipant (joinHuddle
      ⟨[], [], [], [], [⟨"h1", none, "alice", "ended", some 5⟩],
       [⟨"hp0", "h1", "alice", 0, some 5, false, false⟩], [], 1⟩
      "h1" "bob" 7).1 "h1" "bob" = true :=
  ⟨rfl, rfl, rfl, rfl⟩

/-- C2 amended: ending a huddle does transition it to `"ended"` and marks
every active participant as left, but that transition is NOT authoritative
for later joins: `joinHuddle` never consults the huddle's status, so any
subsequent join attempt on the ended huddle still succeeds, handing back an
active participant row and leaving the joiner an active participant. -/
theorem c2_end_marks_left_but_join_ignores_status (db db1 : DB)
    (huddleId creator joiner : String) (t1 t2 : Nat)
    (hend : endHuddle db huddleId creator t1 = Except.ok db1) :
    (∀ h ∈ db1.huddles, h.id = huddleId →
      h.status = "ended" ∧ h.endedAt = some t1) ∧
    (∀ p ∈ db1.huddleParticipants, p.huddleId = huddleId →
      p.leftAt ≠ none) ∧
    (joinHuddle db1 huddleId joiner t2).2.leftAt = none ∧
    isHuddleParticipant (joinHuddle db1 huddleId joiner t2).1
      huddleId joiner = true := by
  unfold endHuddle at hend
  cases hfind : db.huddles.find? (fun h => h.id == huddleId) with
  | none =>
    rw [hfind] at hend
    simp at hend
  | some h0 =>
    rw [hfind] at hend
    dsimp only at hend
    by_cases hcr : (h0.creatorId == creator) = true
    · rw [if_pos hcr] at hend
      injection hend with hdb
      subst hdb
      refine ⟨?_, ?_, joinHuddle_result_active _ _ _ _,
        joinHuddle_makes_participant _ _ _ _⟩
      · intro h hmem hid
        obtain ⟨a, ha, rfl⟩ := List.mem_map.mp hmem
        by_cases hc2 : (a.id == huddleId) = true
        · simp [hc2]
        · simp only [hc2] at hid ⊢
          simp at hid
          exact absurd (by simp [hid]) hc2
      · intro p hmem hpid
        obtain ⟨a, ha, rfl⟩ := List.mem_map.mp hmem
        by_cases hc2 : (a.huddleId == huddleId && a.leftAt == none) = true
        · simp [hc2]
        · simp only [hc2] at hpid ⊢
          simp only [Bool.and_eq_true, beq_iff_eq] at hc2
          simp at hpid ⊢
          intro hnone
          exact hc2 ⟨hpid, by simp [hnone]⟩
    · rw [if_neg hcr] at hend
      simp at hend

/-- C2 witness: instantiating the amended theorem on the concrete one-huddle
store — ending `h1` succeeds, and bob's join of the ended `h1` hands back an
active row and makes him an active participant. -/
theorem c2_end_marks_left_but_join_ignores_status_witness :
    endHuddle
      ⟨[], [], [], [], [⟨"h1", none, "alice", "active", none⟩],
       [⟨"hp0", "h1", "alice", 0, none, false, false⟩], [], 1⟩
      "h1" "alice" 5 =
      Except.ok ⟨[], [], [], [], [⟨"h1", none, "alice", "ended", some 5⟩],
        [⟨"hp0", "h1", "alice", 0, some 5, false, false⟩], [], 1⟩ ∧
    (joinHuddle
      ⟨[], [], [], [], [⟨"h1", none, "alice", "ended", some 5⟩],
       [⟨"hp0", "h1", "alice", 0, some 5, false, false⟩], [], 1⟩
      "h1" "bob" 7).2.leftAt = none ∧
    isHuddleParticipant (joinHuddle
      ⟨[], [], [], [], [⟨"h1", none, "alice", "ended", some 5⟩],
       [⟨"hp0", "h1", "alice", 0, some 5, false, false⟩], [], 1⟩
      "h1" "bob" 7).1 "h1" "bob" = true :=
  ⟨rfl,
   (c2_end_marks_left_but_join_ignores_status
     ⟨[], [], [], [], [⟨"h1", none, "alice", "active", none⟩],
      [⟨"hp0", "h1", "alice", 0, none, false, false⟩], [], 1⟩
     ⟨[], [], [], [], [⟨"h1", none, "alice", "ended", some 5⟩],
      [⟨"hp0", "h1", "alice", 0, some 5, false, false⟩], [], 1⟩
     "h1" "alice" "bob" 5 7 rfl).2.2.1,
   (c2_end_marks_left_but_join_ignores_status
     ⟨[], [], [], [], [⟨"h1", none, "alice", "active", none⟩],
      [⟨"hp0", "h1", "alice", 0, none, false, false⟩], [], 1⟩
     ⟨[], [], [], [], [⟨"h1", none, "alice", "ended", some 5⟩],
      [⟨"hp0", "h1", "alice", 0, some 5, false, false⟩], [], 1⟩
     "h1" "alice" "bob" 5 7 rfl).2.2.2⟩
